import Mathlib

/-!
Klawr CLR host (`ClrHost.cpp`): embedding and verified properties.

The native CLR host is a sequence of calls into collaborators that live outside the
file (the CLR hosting API, the COM safe-array API, the host-control object, the managed
domain managers).  The embedding keeps the control flow of every function of
`ClrHost.cpp` and makes each collaborator answer an explicit argument.  A run
yields the list of calls issued to the hosting API and to the domain managers, the
host state, and an outcome which is either a returned value or a fault.

Conventions of the embedding:

* the target is the 64-bit build: a pointer is an address below `2^64`, `INT_PTR`,
  `LONGLONG` and `__int64` are signed 64-bit integers, `int` and `ULONG` are 32 bits wide;
* `assert(c)` is the C `assert` with the check compiled in: a false condition ends the run
  in `Fault.assertFailed`;
* applying `->` to a null pointer is `Fault.nullDereference` (undefined behaviour in C++).
-/

namespace Klawr

/-! ## Machine values -/

/-- An address held by a native pointer. -/
abbrev Pointer := Nat

/-- An opaque reference to a COM interface held by the host. -/
abbrev Handle := Nat

/-- A COM result code. -/
abbrev HRESULT := Int

/-- `SUCCEEDED(hr)`: the result code is non-negative. -/
def SUCCEEDED (hr : HRESULT) : Bool := decide (0 ≤ hr)

/-- `reinterpret_cast<LONGLONG>(p)` / `reinterpret_cast<INT_PTR>(p)`: the 64 bits of the
address read as a signed integer. -/
def reinterpret_cast_INT_PTR (p : Pointer) : Int :=
  if p % 2 ^ 64 < 2 ^ 63 then ((p % 2 ^ 64 : Nat) : Int) else ((p % 2 ^ 64 : Nat) : Int) - 2 ^ 64

/-- `reinterpret_cast<T*>(v)`: the 64 bits of the signed integer read as an address. -/
def reinterpret_cast_pointer (v : Int) : Pointer := (v % 2 ^ 64).toNat

/-- Range of a signed 64-bit integer (`INT_PTR`, `LONGLONG`, `__int64`). -/
def isInt64 (v : Int) : Bool := decide (-(2 ^ 63) ≤ v) && decide (v < 2 ^ 63)

/-- Conversion of an `int` argument to a `ULONG` parameter. -/
def toULONG (n : Int) : Nat := (n % 2 ^ 32).toNat

/-! ## Outcomes -/

/-- The `assert` statements of `ClrHost.cpp`. -/
inductive AssertSite where
  | unaccessData
  | clrCreateInstance
  | getRuntime
  | getInterface
  | hostControlUnset
  | setHostControl
  | getCLRControl
  | setAppDomainManagerType
  | start
  | stop
  | setNativeFunctionPointers
  | proxiesSameSize
  deriving DecidableEq, Repr

/-- The pointers `ClrHost.cpp` applies `->` or `[]` to without a check. -/
inductive NullSite where
  | hostControl
  | runtimeHost
  | defaultAppDomainManager
  | engineAppDomainManager
  deriving DecidableEq, Repr

/-- Ways a run ends without returning. -/
inductive Fault where
  | assertFailed (site : AssertSite)
  | nullDereference (site : NullSite)
  | readPastEnd
  deriving DecidableEq, Repr

/-- How a call ends. -/
inductive Outcome (α : Type) where
  | returned (value : α)
  | fault (f : Fault)
  deriving DecidableEq, Repr

/-- The outcome is not undefined behaviour: it is a return or a failed assertion. -/
def Outcome.defined {α : Type} : Outcome α → Bool
  | .returned _ => true
  | .fault (.assertFailed _) => true
  | .fault (.nullDereference _) => false
  | .fault .readPastEnd => false

/-! ## Safe arrays -/

/-- Element types of a safe array (`VARTYPE`); `VT_I8` is the 64-bit signed integer. -/
inductive VARTYPE where
  | VT_I4
  | VT_I8
  deriving DecidableEq, Repr

/-- The fields of a `SAFEARRAY` vector the host relies on. -/
structure SAFEARRAY where
  cDims : Nat
  vt : VARTYPE
  lLbound : Int
  cElements : Nat
  pvData : List Int
  deriving DecidableEq, Repr

/-- Answers of the safe-array API during one `CreateSafeArrayOfWrapperFunctions` call. -/
structure SafeArrayApi where
  createVectorSucceeds : Bool
  accessData : HRESULT
  unaccessData : HRESULT
  deriving DecidableEq, Repr

/-- `SafeArrayCreateVector(vt, lLbound, cElements)`: null, or a one-dimensional array of
`cElements` zeroed elements. -/
def SafeArrayCreateVector (api : SafeArrayApi) (vt : VARTYPE) (lLbound : Int) (cElements : Nat) :
    Option SAFEARRAY :=
  if api.createVectorSucceeds then
    some { cDims := 1, vt := vt, lLbound := lLbound, cElements := cElements,
           pvData := List.replicate cElements 0 }
  else none

/-- The body of `for (auto i = 0; i < numFunctions; ++i)` run `remaining` more times from
index `i`: `safeArrayData[i] = reinterpret_cast<LONGLONG>(wrapperFunctions[i])`. -/
def copyWrapperFunctions (wrapperFunctions : List Pointer) :
    Nat → Nat → List Int → Outcome (List Int)
  | 0, _, safeArrayData => .returned safeArrayData
  | remaining + 1, i, safeArrayData =>
    match wrapperFunctions.get? i with
    | none => .fault .readPastEnd
    | some p =>
      copyWrapperFunctions wrapperFunctions remaining (i + 1)
        (safeArrayData.set i (reinterpret_cast_INT_PTR p))

/-- `CreateSafeArrayOfWrapperFunctions(wrapperFunctions, numFunctions)`; the array behind
`wrapperFunctions` is the list, `none` is the null `SAFEARRAY*`. -/
def CreateSafeArrayOfWrapperFunctions (api : SafeArrayApi) (wrapperFunctions : List Pointer)
    (numFunctions : Int) : Outcome (Option SAFEARRAY) :=
  match SafeArrayCreateVector api .VT_I8 0 (toULONG numFunctions) with
  | none => .returned none
  | some safeArray =>
    if SUCCEEDED api.accessData then
      match copyWrapperFunctions wrapperFunctions numFunctions.toNat 0 safeArray.pvData with
      | .fault f => .fault f
      | .returned safeArrayData =>
        if SUCCEEDED api.unaccessData then
          .returned (some { safeArray with pvData := safeArrayData })
        else .fault (.assertFailed .unaccessData)
    else .returned (some safeArray)

/-! ## Records crossing the boundary -/

/-- The native `ObjectUtilsNativeInfo`: four callbacks of the engine. -/
structure ObjectUtilsNativeInfo where
  GetClassByName : Pointer
  GetClassName : Pointer
  IsClassChildOf : Pointer
  RemoveObjectRef : Pointer
  deriving DecidableEq, Repr

/-- The native `ScriptObjectInstanceInfo`: an `__int64` ID and three callbacks. -/
structure ScriptObjectInstanceInfo where
  InstanceID : Int
  BeginPlay : Pointer
  Tick : Pointer
  Destroy : Pointer
  deriving DecidableEq, Repr

namespace Klawr_ClrHost_Interfaces

/-- The interop `ObjectUtilsNativeInfo`: the four callbacks as `INT_PTR`. -/
structure ObjectUtilsNativeInfo where
  GetClassByName : Int
  GetClassName : Int
  IsClassChildOf : Int
  RemoveObjectRef : Int
  deriving DecidableEq, Repr

/-- The interop `ScriptObjectInstanceInfo`: the ID and the callbacks as integers. -/
structure ScriptObjectInstanceInfo where
  InstanceID : Int
  BeginPlay : Int
  Tick : Int
  Destroy : Int
  deriving DecidableEq, Repr

end Klawr_ClrHost_Interfaces

/-! ## Calls issued by the host -/

/-- The seven hosting-API calls of `ClrHost::Startup`, in source order. -/
inductive HostingStep where
  | CLRCreateInstance
  | GetRuntime
  | GetInterface
  | SetHostControl
  | GetCLRControl
  | SetAppDomainManagerType
  | Start
  deriving DecidableEq, Repr, Fintype

/-- Position of a hosting step in `ClrHost::Startup`. -/
def HostingStep.index : HostingStep → Nat
  | .CLRCreateInstance => 0
  | .GetRuntime => 1
  | .GetInterface => 2
  | .SetHostControl => 3
  | .GetCLRControl => 4
  | .SetAppDomainManagerType => 5
  | .Start => 6

/-- The `assert` that follows a hosting step. -/
def HostingStep.assertSite : HostingStep → AssertSite
  | .CLRCreateInstance => .clrCreateInstance
  | .GetRuntime => .getRuntime
  | .GetInterface => .getInterface
  | .SetHostControl => .setHostControl
  | .GetCLRControl => .getCLRControl
  | .SetAppDomainManagerType => .setAppDomainManagerType
  | .Start => .start

/-- The seven hosting steps in source order. -/
def hostingSteps : List HostingStep :=
  [.CLRCreateInstance, .GetRuntime, .GetInterface, .SetHostControl, .GetCLRControl,
   .SetAppDomainManagerType, .Start]

/-- A call issued by the host to the hosting API, the runtime host, the host-control
object or a domain manager, with the arguments it carries. Calls of the safe-array
API are local to `CreateSafeArrayOfWrapperFunctions` and are not recorded. -/
inductive Event where
  | hosting (step : HostingStep)
  | Stop
  | Release
  | CreateEngineAppDomain
  | DestroyEngineAppDomain
  | SetNativeFunctionPointers (className : String) (safeArray : Option SAFEARRAY)
  | BindObjectUtils (interopInfo : Klawr_ClrHost_Interfaces.ObjectUtilsNativeInfo)
  | LoadUnrealEngineWrapperAssembly
  | CreateScriptObject (className : String) (owner : Int)
  | DestroyScriptObject (instanceID : Int)
  | CreateScriptComponent (className : String) (nativeComponent : Int)
  | DestroyScriptComponent (instanceID : Int)
  deriving DecidableEq, Repr

/-! ## Host state -/

/-- Modelled from the spec: `ClrHostControl` (declared in `ClrHostControl.h`, absent from
the sources) is the single point of contact handing out two domain manager handles: the
one of the default domain and the one of the per-session engine domain. A null handle is
`none`. -/
structure ClrHostControl where
  defaultAppDomainManager : Option Handle
  engineAppDomainManager : Option Handle
  deriving DecidableEq, Repr

/-- Modelled from the spec: `ClrHostControl::GetDefaultAppDomainManager` hands out the handle
of the default domain manager. -/
def ClrHostControl.GetDefaultAppDomainManager (hostControl : ClrHostControl) : Option Handle :=
  hostControl.defaultAppDomainManager

/-- Modelled from the spec: `ClrHostControl::GetEngineAppDomainManager` hands out the
engine (session) domain manager handle. -/
def ClrHostControl.GetEngineAppDomainManager (hostControl : ClrHostControl) : Option Handle :=
  hostControl.engineAppDomainManager

/-- Modelled from the spec: the constructor of `ClrHostControl` (absent from the sources)
leaves both domain manager handles null; a handle exists only once the managed side has
registered its domain manager. -/
def ClrHostControl.create : ClrHostControl :=
  { defaultAppDomainManager := none, engineAppDomainManager := none }

/-- Modelled from the spec: the registration callback of `ClrHostControl` (absent from the
sources) stores the default domain manager the runtime registers while it starts. -/
def ClrHostControl.registerDefaultAppDomainManager (hostControl : ClrHostControl)
    (manager : Option Handle) : ClrHostControl :=
  { hostControl with defaultAppDomainManager := manager }

/-- Modelled from the spec: the registration callback of `ClrHostControl` (absent from the
sources) stores the engine domain manager the managed side registers when the engine
domain is created; it replaces the handle held before. -/
def ClrHostControl.registerEngineAppDomainManager (hostControl : ClrHostControl)
    (manager : Option Handle) : ClrHostControl :=
  { hostControl with engineAppDomainManager := manager }

/-- An entry of `_classWrappers`: the native function-pointer table of one class. -/
structure ClassWrapperInfo where
  functionPointers : List Pointer
  numFunctions : Int
  deriving DecidableEq, Repr

/-- The members of `ClrHost` used by `ClrHost.cpp`; `_classWrappers` is listed in the
iteration order of the container. -/
structure ClrHost where
  _runtimeHost : Option Handle
  _hostControl : Option ClrHostControl
  _classWrappers : List (String × ClassWrapperInfo)
  deriving DecidableEq, Repr

/-- What a call of a host function did: the calls it issued in order, the host state it
left, and how it ended. -/
structure Run (α : Type) where
  calls : List Event
  host : ClrHost
  outcome : Outcome α

/-- The runtime was started: the runtime host and the host-control object are held and
the domain manager of the default domain has registered. -/
def ClrHost.started (host : ClrHost) : Bool :=
  host._runtimeHost.isSome &&
    (match host._hostControl with
     | some hostControl => hostControl.defaultAppDomainManager.isSome
     | none => false)

/-- A session is active: the host control holds a non-null engine domain manager. -/
def ClrHost.sessionActive (host : ClrHost) : Bool :=
  match host._hostControl with
  | some hostControl => hostControl.engineAppDomainManager.isSome
  | none => false

/-! ## `ClrHost::Startup` -/

/-- Answers of the CLR hosting API during `ClrHost::Startup`: the result code of each
step, the runtime host interface `GetInterface` stores, and the default domain manager the
runtime registers with the host control when it starts. -/
structure HostingApi where
  result : HostingStep → HRESULT
  runtimeHost : Handle
  defaultAppDomainManager : Option Handle

/-- `ClrHost::Startup()`. -/
def Startup (api : HostingApi) (host : ClrHost) : Run Unit :=
  -- hr = CLRCreateInstance(...); assert(SUCCEEDED(hr));
  let calls := [Event.hosting .CLRCreateInstance]
  if !SUCCEEDED (api.result .CLRCreateInstance) then
    ⟨calls, host, .fault (.assertFailed .clrCreateInstance)⟩
  else
  -- hr = metaHost->GetRuntime(...); assert(SUCCEEDED(hr));
  let calls := calls ++ [Event.hosting .GetRuntime]
  if !SUCCEEDED (api.result .GetRuntime) then
    ⟨calls, host, .fault (.assertFailed .getRuntime)⟩
  else
  -- hr = runtimeInfo->GetInterface(..., &_runtimeHost); assert(SUCCEEDED(hr));
  let calls := calls ++ [Event.hosting .GetInterface]
  if !SUCCEEDED (api.result .GetInterface) then
    ⟨calls, host, .fault (.assertFailed .getInterface)⟩
  else
  let host := { host with _runtimeHost := some api.runtimeHost }
  -- assert(!_hostControl); _hostControl = new ClrHostControl();
  if host._hostControl.isSome then
    ⟨calls, host, .fault (.assertFailed .hostControlUnset)⟩
  else
  let hostControl := ClrHostControl.create
  let host := { host with _hostControl := some hostControl }
  -- hr = _runtimeHost->SetHostControl(_hostControl); assert(SUCCEEDED(hr));
  let calls := calls ++ [Event.hosting .SetHostControl]
  if !SUCCEEDED (api.result .SetHostControl) then
    ⟨calls, host, .fault (.assertFailed .setHostControl)⟩
  else
  -- hr = _runtimeHost->GetCLRControl(&clrControl); assert(SUCCEEDED(hr));
  let calls := calls ++ [Event.hosting .GetCLRControl]
  if !SUCCEEDED (api.result .GetCLRControl) then
    ⟨calls, host, .fault (.assertFailed .getCLRControl)⟩
  else
  -- hr = clrControl->SetAppDomainManagerType(...); assert(SUCCEEDED(hr));
  let calls := calls ++ [Event.hosting .SetAppDomainManagerType]
  if !SUCCEEDED (api.result .SetAppDomainManagerType) then
    ⟨calls, host, .fault (.assertFailed .setAppDomainManagerType)⟩
  else
  -- hr = _runtimeHost->Start(); assert(SUCCEEDED(hr));
  let calls := calls ++ [Event.hosting .Start]
  if !SUCCEEDED (api.result .Start) then
    ⟨calls, host, .fault (.assertFailed .start)⟩
  else
  -- the runtime has started: its default domain manager registers with the host control
  let hostControl := hostControl.registerDefaultAppDomainManager api.defaultAppDomainManager
  ⟨calls, { host with _hostControl := some hostControl }, .returned ()⟩

/-! ## `ClrHost::Shutdown` -/

/-- `ClrHost::Shutdown()`; `stopResult` is the result code of the runtime host's `Stop`. -/
def Shutdown (stopResult : HRESULT) (host : ClrHost) : Run Unit :=
  -- auto defaultAppDomainManager = _hostControl->GetDefaultAppDomainManager();
  match host._hostControl with
  | none => ⟨[], host, .fault (.nullDereference .hostControl)⟩
  | some hostControl =>
    let defaultAppDomainManager := hostControl.GetDefaultAppDomainManager
    -- if (defaultAppDomainManager) defaultAppDomainManager->DestroyEngineAppDomain();
    let calls :=
      match defaultAppDomainManager with
      | some _ => [Event.DestroyEngineAppDomain]
      | none => []
    -- HRESULT hr = _runtimeHost->Stop(); assert(SUCCEEDED(hr));
    match host._runtimeHost with
    | none => ⟨calls, host, .fault (.nullDereference .runtimeHost)⟩
    | some _ =>
      let calls := calls ++ [Event.Stop]
      if !SUCCEEDED stopResult then
        ⟨calls, host, .fault (.assertFailed .stop)⟩
      else
      -- if (_hostControl) { _hostControl->Release(); _hostControl = nullptr; }
      match host._hostControl with
      | some _ => ⟨calls ++ [Event.Release], { host with _hostControl := none }, .returned ()⟩
      | none => ⟨calls, host, .returned ()⟩

/-! ## `ClrHost::InitializeEngineAppDomain` -/

/-- Answers of the collaborators during `ClrHost::InitializeEngineAppDomain`: the engine
domain manager that registers with the host control while `CreateEngineAppDomain` runs
(null when none does), the safe-array API answers while the table of a class is packed, and
the result code of `SetNativeFunctionPointers` for that class. -/
structure SessionApi where
  engineAppDomainManager : Option Handle
  safeArrayApi : String → SafeArrayApi
  setNativeFunctionPointers : String → HRESULT

/-- The loop `for (const auto& classWrapper : _classWrappers)` of
`ClrHost::InitializeEngineAppDomain`: the calls issued and how the loop ended. -/
def pushClassWrappers (api : SessionApi) :
    List (String × ClassWrapperInfo) → List Event × Outcome Unit
  | [] => ([], .returned ())
  | classWrapper :: rest =>
    let className := classWrapper.1
    let wrapperInfo := classWrapper.2
    match CreateSafeArrayOfWrapperFunctions (api.safeArrayApi className)
        wrapperInfo.functionPointers wrapperInfo.numFunctions with
    | .fault f => ([], .fault f)
    | .returned safeArray =>
      -- HRESULT hr = engineAppDomainManager->SetNativeFunctionPointers(className, safeArray);
      let call := Event.SetNativeFunctionPointers className safeArray
      -- assert(SUCCEEDED(hr));
      if !SUCCEEDED (api.setNativeFunctionPointers className) then
        ([call], .fault (.assertFailed .setNativeFunctionPointers))
      else
        let tail := pushClassWrappers api rest
        (call :: tail.1, tail.2)

/-- `ClrHost::InitializeEngineAppDomain(info)`. -/
def InitializeEngineAppDomain (api : SessionApi) (info : ObjectUtilsNativeInfo)
    (host : ClrHost) : Run Unit :=
  -- _hostControl->GetDefaultAppDomainManager()->CreateEngineAppDomain();
  match host._hostControl with
  | none => ⟨[], host, .fault (.nullDereference .hostControl)⟩
  | some hostControl =>
    match hostControl.GetDefaultAppDomainManager with
    | none => ⟨[], host, .fault (.nullDereference .defaultAppDomainManager)⟩
    | some _ =>
      let calls := [Event.CreateEngineAppDomain]
      -- the engine domain was created: its domain manager registers with the host control
      let hostControl := hostControl.registerEngineAppDomainManager api.engineAppDomainManager
      let host := { host with _hostControl := some hostControl }
      -- auto engineAppDomainManager = _hostControl->GetEngineAppDomainManager();
      match hostControl.GetEngineAppDomainManager with
      | none => ⟨calls, host, .returned ()⟩
      | some _ =>
        let pushed := pushClassWrappers api host._classWrappers
        let calls := calls ++ pushed.1
        match pushed.2 with
        | .fault f => ⟨calls, host, .fault f⟩
        | .returned _ =>
          let interopInfo : Klawr_ClrHost_Interfaces.ObjectUtilsNativeInfo :=
            { GetClassByName := reinterpret_cast_INT_PTR info.GetClassByName
              GetClassName := reinterpret_cast_INT_PTR info.GetClassName
              IsClassChildOf := reinterpret_cast_INT_PTR info.IsClassChildOf
              RemoveObjectRef := reinterpret_cast_INT_PTR info.RemoveObjectRef }
          -- engineAppDomainManager->BindObjectUtils(&interopInfo);
          -- engineAppDomainManager->LoadUnrealEngineWrapperAssembly();
          ⟨calls ++ [Event.BindObjectUtils interopInfo, Event.LoadUnrealEngineWrapperAssembly],
            host, .returned ()⟩

/-! ## Script objects -/

/-- Answers of the engine domain manager on the managed side.  `CreateScriptObject` gives
the value it returns and the content it leaves in `srcInfo`; `CreateScriptComponent` gives
the value it returns and the content it leaves in the proxy it was handed. -/
structure EngineAppDomainManager (Proxy : Type) where
  CreateScriptObject : String → Int → Int × Klawr_ClrHost_Interfaces.ScriptObjectInstanceInfo
  CreateScriptComponent : String → Int → Proxy → Int × Proxy

/-- `ClrHost::CreateScriptObject(className, owner, info)`: the run, paired with the content
of the out-parameter `info` once the call is over. -/
def CreateScriptObject {Proxy : Type} (manager : EngineAppDomainManager Proxy)
    (className : String) (owner : Pointer) (info : ScriptObjectInstanceInfo) (host : ClrHost) :
    Run Bool × ScriptObjectInstanceInfo :=
  match host._hostControl with
  | none => (⟨[], host, .fault (.nullDereference .hostControl)⟩, info)
  | some hostControl =>
    match hostControl.GetEngineAppDomainManager with
    | none => (⟨[], host, .fault (.nullDereference .engineAppDomainManager)⟩, info)
    | some _ =>
      -- bool created = !!...->CreateScriptObject(className, reinterpret_cast<INT_PTR>(owner), &srcInfo);
      let answer := manager.CreateScriptObject className (reinterpret_cast_INT_PTR owner)
      let srcInfo := answer.2
      let created : Bool := decide (answer.1 ≠ 0)
      let calls := [Event.CreateScriptObject className (reinterpret_cast_INT_PTR owner)]
      if created then
        let info :=
          { info with
            InstanceID := srcInfo.InstanceID
            BeginPlay := reinterpret_cast_pointer srcInfo.BeginPlay
            Tick := reinterpret_cast_pointer srcInfo.Tick
            Destroy := reinterpret_cast_pointer srcInfo.Destroy }
        (⟨calls, host, .returned created⟩, info)
      else (⟨calls, host, .returned created⟩, info)

/-- `ClrHost::DestroyScriptObject(instanceID)`. -/
def DestroyScriptObject (instanceID : Int) (host : ClrHost) : Run Unit :=
  match host._hostControl with
  | none => ⟨[], host, .fault (.nullDereference .hostControl)⟩
  | some hostControl =>
    match hostControl.GetEngineAppDomainManager with
    | none => ⟨[], host, .fault (.nullDereference .engineAppDomainManager)⟩
    | some _ => ⟨[Event.DestroyScriptObject instanceID], host, .returned ()⟩

/-! ## Script components -/

/-- `ClrHost::CreateScriptComponent(className, nativeComponent, proxy)`: the run, paired
with the content of `proxy` once the call is over.  The two sizes are
`sizeof(Klawr_ClrHost_Interfaces::ScriptComponentProxy)` and `sizeof(ScriptComponentProxy)`,
whose declarations are outside `ClrHost.cpp`. -/
def CreateScriptComponent {Proxy : Type} (sizeofInteropProxy sizeofNativeProxy : Nat)
    (manager : EngineAppDomainManager Proxy) (className : String) (nativeComponent : Pointer)
    (proxy : Proxy) (host : ClrHost) : Run Bool × Proxy :=
  let proxiesSameSize : Bool := decide (sizeofInteropProxy = sizeofNativeProxy)
  -- assert(proxiesSameSize);
  if !proxiesSameSize then (⟨[], host, .fault (.assertFailed .proxiesSameSize)⟩, proxy)
  else
  -- if (!proxiesSameSize) return false;
  if !proxiesSameSize then (⟨[], host, .returned false⟩, proxy)
  else
  match host._hostControl with
  | none => (⟨[], host, .fault (.nullDereference .hostControl)⟩, proxy)
  | some hostControl =>
    match hostControl.GetEngineAppDomainManager with
    | none => (⟨[], host, .fault (.nullDereference .engineAppDomainManager)⟩, proxy)
    | some _ =>
      let answer :=
        manager.CreateScriptComponent className (reinterpret_cast_INT_PTR nativeComponent) proxy
      (⟨[Event.CreateScriptComponent className (reinterpret_cast_INT_PTR nativeComponent)], host,
        .returned (decide (answer.1 ≠ 0))⟩, answer.2)

/-- `ClrHost::DestroyScriptComponent(instanceID)`. -/
def DestroyScriptComponent (instanceID : Int) (host : ClrHost) : Run Unit :=
  match host._hostControl with
  | none => ⟨[], host, .fault (.nullDereference .hostControl)⟩
  | some hostControl =>
    match hostControl.GetEngineAppDomainManager with
    | none => ⟨[], host, .fault (.nullDereference .engineAppDomainManager)⟩
    | some _ => ⟨[Event.DestroyScriptComponent instanceID], host, .returned ()⟩

/-! ## Reference values of the specification and sample data -/

/-- The packed array of a table of function pointers as the specification describes it:
one dimension, 64-bit integer elements, lower bound 0, one element per pointer in table
order, each the pointer reinterpreted as a 64-bit integer. -/
def packedArray (functionPointers : List Pointer) : SAFEARRAY :=
  { cDims := 1, vt := .VT_I8, lLbound := 0, cElements := functionPointers.length,
    pvData := functionPointers.map reinterpret_cast_INT_PTR }

/-- The interop record `ClrHost::InitializeEngineAppDomain` is specified to bind: each
callback of the argument as an integer, in the like-named field. -/
def interopObjectUtils (info : ObjectUtilsNativeInfo) :
    Klawr_ClrHost_Interfaces.ObjectUtilsNativeInfo :=
  { GetClassByName := reinterpret_cast_INT_PTR info.GetClassByName
    GetClassName := reinterpret_cast_INT_PTR info.GetClassName
    IsClassChildOf := reinterpret_cast_INT_PTR info.IsClassChildOf
    RemoveObjectRef := reinterpret_cast_INT_PTR info.RemoveObjectRef }

/-- Every collaborator answers with success while the table of this class is pushed, and the
entry is well formed: `numFunctions` is the length of the table and fits an `int`. -/
def pushSucceeds (api : SessionApi) (classWrapper : String × ClassWrapperInfo) : Bool :=
  (api.safeArrayApi classWrapper.1).createVectorSucceeds &&
  SUCCEEDED (api.safeArrayApi classWrapper.1).accessData &&
  SUCCEEDED (api.safeArrayApi classWrapper.1).unaccessData &&
  SUCCEEDED (api.setNativeFunctionPointers classWrapper.1) &&
  decide (classWrapper.2.numFunctions = classWrapper.2.functionPointers.length) &&
  decide (classWrapper.2.numFunctions < 2 ^ 31)

/-- `E_FAIL`, as a signed 32-bit result code. -/
def E_FAIL : HRESULT := -2147467259

/-- A started host with one registered class and no session. -/
def startedHost : ClrHost :=
  { _runtimeHost := some 7
    _hostControl := some { defaultAppDomainManager := some 1, engineAppDomainManager := none }
    _classWrappers := [("AActor", { functionPointers := [4096, 2 ^ 64 - 16], numFunctions := 2 })] }

/-- A started host with one registered class and an active session. -/
def sessionHost : ClrHost :=
  { _runtimeHost := some 7
    _hostControl := some { defaultAppDomainManager := some 1, engineAppDomainManager := some 2 }
    _classWrappers := [("AActor", { functionPointers := [4096, 2 ^ 64 - 16], numFunctions := 2 })] }

/-- A hosting API whose every step succeeds. -/
def hostingOk : HostingApi :=
  { result := fun _ => 0, runtimeHost := 7, defaultAppDomainManager := some 1 }

/-- A hosting API whose `GetInterface` step fails and whose other steps succeed. -/
def hostingGetInterfaceFails : HostingApi :=
  { result := fun step => if step = .GetInterface then E_FAIL else 0
    runtimeHost := 7, defaultAppDomainManager := some 1 }

/-- A session whose collaborators all succeed; the engine domain manager is handle 2. -/
def sessionOk : SessionApi :=
  { engineAppDomainManager := some 2
    safeArrayApi := fun _ => { createVectorSucceeds := true, accessData := 0, unaccessData := 0 }
    setNativeFunctionPointers := fun _ => 0 }

/-- A session in which `SetNativeFunctionPointers` answers `E_FAIL`. -/
def sessionPushFails : SessionApi :=
  { sessionOk with setNativeFunctionPointers := fun _ => E_FAIL }

/-- A session in which `SafeArrayCreateVector` gives null. -/
def sessionNoArray : SessionApi :=
  { sessionOk with
    safeArrayApi := fun _ => { createVectorSucceeds := false, accessData := 0, unaccessData := 0 } }

/-- A second session request; the engine domain manager it registers is handle 3. -/
def sessionAgain : SessionApi :=
  { sessionOk with engineAppDomainManager := some 3 }

/-- Four engine callbacks. -/
def sampleUtils : ObjectUtilsNativeInfo :=
  { GetClassByName := 1000, GetClassName := 2000, IsClassChildOf := 3000,
    RemoveObjectRef := 2 ^ 64 - 8 }

/-- A managed engine domain manager that knows the class `MyActor` only. -/
def sampleManager : EngineAppDomainManager Nat :=
  { CreateScriptObject := fun className _ =>
      if className = "MyActor" then
        (-1, { InstanceID := 99, BeginPlay := 100, Tick := -200, Destroy := 300 })
      else (0, { InstanceID := 55, BeginPlay := 1, Tick := 2, Destroy := 3 })
    CreateScriptComponent := fun className _ proxy =>
      if className = "MyComponent" then (1, proxy + 1) else (0, proxy) }

/-- Content of an out-parameter before a call. -/
def priorInfo : ScriptObjectInstanceInfo :=
  { InstanceID := 7, BeginPlay := 10, Tick := 20, Destroy := 30 }


/-! ## Auxiliary lemmas -/

/-- Reading a pointer as a signed 64-bit integer and back gives the pointer. -/
theorem reinterpret_cast_pointer_INT_PTR (p : Nat) (hp : p < 2 ^ 64) :
    reinterpret_cast_pointer (reinterpret_cast_INT_PTR p) = p := by
  have hp2 : (p : Nat) < 18446744073709551616 := by norm_num at hp; exact hp
  show ((reinterpret_cast_INT_PTR p) % 2 ^ 64).toNat = (p : Nat)
  unfold reinterpret_cast_INT_PTR
  have hm : (p : Nat) % 2 ^ 64 = p := Nat.mod_eq_of_lt hp
  rw [hm]
  have e64 : (2 : Int) ^ 64 = 18446744073709551616 := by norm_num
  have e63 : (2 : Nat) ^ 63 = 9223372036854775808 := by norm_num
  rw [e64, e63]
  by_cases h : (p : Nat) < 9223372036854775808
  · rw [if_pos h]; omega
  · rw [if_neg h]; omega

/-- Reading a signed 64-bit integer as a pointer and back gives the integer. -/
theorem reinterpret_cast_INT_PTR_pointer (v : Int) (hv : isInt64 v = true) :
    reinterpret_cast_INT_PTR (reinterpret_cast_pointer v) = v := by
  unfold isInt64 at hv
  simp only [Bool.and_eq_true, decide_eq_true_eq] at hv
  have e64 : (2 : Int) ^ 64 = 18446744073709551616 := by norm_num
  have e63 : (2 : Int) ^ 63 = 9223372036854775808 := by norm_num
  have n64 : (2 : Nat) ^ 64 = 18446744073709551616 := by norm_num
  have n63 : (2 : Nat) ^ 63 = 9223372036854775808 := by norm_num
  rw [e63] at hv
  unfold reinterpret_cast_INT_PTR reinterpret_cast_pointer
  rw [e64, n64, n63]
  have h1 : (v % 18446744073709551616).toNat % 18446744073709551616 = (v % 18446744073709551616).toNat := by
    omega
  rw [h1]
  by_cases h : (v % 18446744073709551616).toNat < 9223372036854775808
  · rw [if_pos h]; omega
  · rw [if_neg h]; omega

/-- The copy loop returns when the table is long enough; it overwrites exactly the
indices it visits that lie inside the destination. -/
theorem copyWrapperFunctions_spec (wrapperFunctions : List Pointer) :
    ∀ (remaining i : Nat) (safeArrayData : List Int),
      i + remaining ≤ wrapperFunctions.length →
      ∃ filled, copyWrapperFunctions wrapperFunctions remaining i safeArrayData = .returned filled ∧
        filled.length = safeArrayData.length ∧
        ∀ j, filled[j]? =
          if i ≤ j ∧ j < i + remaining ∧ j < safeArrayData.length then
            (wrapperFunctions[j]?).map reinterpret_cast_INT_PTR
          else safeArrayData[j]? := by
  intro remaining
  induction remaining with
  | zero =>
    intro i data _
    refine ⟨data, rfl, rfl, ?_⟩
    intro j
    rw [if_neg (by omega)]
  | succ k ih =>
    intro i data hle
    have hi : i < wrapperFunctions.length := by omega
    obtain ⟨filled, hrun, hlen, hget⟩ :=
      ih (i + 1) (data.set i (reinterpret_cast_INT_PTR wrapperFunctions[i])) (by omega)
    refine ⟨filled, ?_, ?_, ?_⟩
    · simp only [copyWrapperFunctions, List.get?_eq_getElem?, List.getElem?_eq_getElem hi]
      exact hrun
    · simpa using hlen
    · intro j
      rw [hget j]
      simp only [List.length_set]
      by_cases hj : j = i
      · subst hj
        by_cases hd : j < data.length
        · simp [hd, List.getElem?_eq_getElem hi]
        · have hge : data.length ≤ j := by omega
          rw [if_neg (by omega), if_neg (by omega), List.getElem?_eq_none hge,
            List.getElem?_eq_none (by simpa using hge)]
      · by_cases hc : i + 1 ≤ j ∧ j < i + 1 + k ∧ j < data.length
        · have hc2 : i ≤ j ∧ j < i + (k + 1) ∧ j < data.length := by omega
          simp [hc, hc2]
        · have hc2 : ¬ (i ≤ j ∧ j < i + (k + 1) ∧ j < data.length) := by omega
          rw [if_neg hc, if_neg hc2]
          exact List.getElem?_set_ne (Ne.symm hj)

/-- With every safe-array call succeeding and `numFunctions` the length of the table,
`CreateSafeArrayOfWrapperFunctions` returns the packed array of the table. -/
theorem CreateSafeArrayOfWrapperFunctions_eq (api : SafeArrayApi) (wrapperFunctions : List Pointer)
    (numFunctions : Int) (hcreate : api.createVectorSucceeds = true)
    (haccess : SUCCEEDED api.accessData = true) (hunaccess : SUCCEEDED api.unaccessData = true)
    (hn : numFunctions = wrapperFunctions.length) (hint : numFunctions < 2 ^ 31) :
    CreateSafeArrayOfWrapperFunctions api wrapperFunctions numFunctions =
      .returned (some (packedArray wrapperFunctions)) := by
  have hu : toULONG numFunctions = wrapperFunctions.length := by
    unfold toULONG; omega
  have ht : numFunctions.toNat = wrapperFunctions.length := by omega
  obtain ⟨filled, hrun, hlen, hget⟩ :=
    copyWrapperFunctions_spec wrapperFunctions wrapperFunctions.length 0
      (List.replicate wrapperFunctions.length 0) (by omega)
  have hfilled : filled = wrapperFunctions.map reinterpret_cast_INT_PTR := by
    apply List.ext_getElem?
    intro j
    rw [hget j]
    by_cases hj : j < wrapperFunctions.length
    · simp [hj]
    · have h1 : wrapperFunctions.length ≤ j := by omega
      simp [hj, List.getElem?_eq_none, h1]
  simp only [CreateSafeArrayOfWrapperFunctions, SafeArrayCreateVector, hcreate, haccess, hunaccess,
    hu, ht, if_true, hrun, hfilled, packedArray]

/-- A pointer read as an integer is in the signed 64-bit range. -/
theorem reinterpret_cast_INT_PTR_isInt64 (p : Nat) :
    isInt64 (reinterpret_cast_INT_PTR p) = true := by
  unfold isInt64 reinterpret_cast_INT_PTR
  simp only [Bool.and_eq_true, decide_eq_true_eq]
  have e64 : (2 : Int) ^ 64 = 18446744073709551616 := by norm_num
  have e63 : (2 : Int) ^ 63 = 9223372036854775808 := by norm_num
  have n64 : (2 : Nat) ^ 64 = 18446744073709551616 := by norm_num
  have n63 : (2 : Nat) ^ 63 = 9223372036854775808 := by norm_num
  rw [e64, e63, n64, n63]
  by_cases h : p % 18446744073709551616 < 9223372036854775808
  · rw [if_pos h]; omega
  · rw [if_neg h]; omega


/-- A host in which a session is active holds a host control with an engine manager. -/
theorem sessionActive_iff (host : ClrHost) :
    host.sessionActive = true ↔
      ∃ hostControl manager, host._hostControl = some hostControl ∧
        hostControl.engineAppDomainManager = some manager := by
  unfold ClrHost.sessionActive
  cases h : host._hostControl with
  | none => simp
  | some hostControl =>
    cases hm : hostControl.engineAppDomainManager <;> simp [hm]

/-- A started host holds a runtime host and a host control with a default manager. -/
theorem started_iff (host : ClrHost) :
    host.started = true ↔
      ∃ runtimeHost hostControl manager, host._runtimeHost = some runtimeHost ∧
        host._hostControl = some hostControl ∧
        hostControl.defaultAppDomainManager = some manager := by
  unfold ClrHost.started
  cases hr : host._runtimeHost <;> cases h : host._hostControl with
  | none => simp
  | some hostControl =>
    cases hm : hostControl.defaultAppDomainManager <;> simp [hm]


/-- What `ClrHost::Shutdown` calls when the host control and the runtime host are held. -/
theorem Shutdown_calls (stopResult : HRESULT) (host : ClrHost) (runtimeHost : Handle)
    (hostControl : ClrHostControl) (hrt : host._runtimeHost = some runtimeHost)
    (hhc : host._hostControl = some hostControl) :
    (Shutdown stopResult host).calls =
      (if hostControl.defaultAppDomainManager.isSome then [Event.DestroyEngineAppDomain] else [])
        ++ [Event.Stop] ++ (if SUCCEEDED stopResult then [Event.Release] else []) := by
  cases hd : hostControl.defaultAppDomainManager <;> cases hs : SUCCEEDED stopResult <;>
    simp [Shutdown, hrt, hhc, ClrHostControl.GetDefaultAppDomainManager, hd, hs]


/-- A property of the seven hosting steps holds of every hosting step. -/
theorem HostingStep.cases_results (P : HostingStep → Prop)
    (h : P .CLRCreateInstance ∧ P .GetRuntime ∧ P .GetInterface ∧ P .SetHostControl ∧
      P .GetCLRControl ∧ P .SetAppDomainManagerType ∧ P .Start) : ∀ step, P step := by
  intro step
  obtain ⟨h1, h2, h3, h4, h5, h6, h7⟩ := h
  cases step <;> assumption

/-- `ClrHost::Startup` returns only when every hosting step reported success. -/
theorem Startup_returned_all_succeeded (api : HostingApi) (host : ClrHost)
    (hret : (Startup api host).outcome = .returned ()) :
    ∀ step, SUCCEEDED (api.result step) = true := by
  apply HostingStep.cases_results
  unfold Startup at hret
  cases h1 : SUCCEEDED (api.result .CLRCreateInstance) <;> simp [h1] at hret
  cases h2 : SUCCEEDED (api.result .GetRuntime) <;> simp [h2] at hret
  cases h3 : SUCCEEDED (api.result .GetInterface) <;> simp [h3] at hret
  cases hh : host._hostControl <;> simp [hh] at hret
  cases h4 : SUCCEEDED (api.result .SetHostControl) <;> simp [h4] at hret
  cases h5 : SUCCEEDED (api.result .GetCLRControl) <;> simp [h5] at hret
  cases h6 : SUCCEEDED (api.result .SetAppDomainManagerType) <;> simp [h6] at hret
  cases h7 : SUCCEEDED (api.result .Start) <;> simp [h7] at hret
  exact ⟨rfl, rfl, rfl, rfl, rfl, rfl, rfl⟩


/-- A failing hosting step ends `ClrHost::Startup` in a failed assertion, no later step is
called, and the assertion is the one of the first failing step when the host control was
unset on entry (or the step precedes its creation). -/
theorem Startup_failure (api : HostingApi) (host : ClrHost) (step : HostingStep)
    (hfail : SUCCEEDED (api.result step) = false) :
    (∃ site, (Startup api host).outcome = .fault (.assertFailed site)) ∧
    (∀ later : HostingStep, step.index < later.index →
      Event.hosting later ∉ (Startup api host).calls) ∧
    ((∀ earlier : HostingStep, earlier.index < step.index →
        SUCCEEDED (api.result earlier) = true) →
      (host._hostControl = none ∨ step.index < 3) →
      (Startup api host).outcome = .fault (.assertFailed step.assertSite) ∧
      (Startup api host).calls = (hostingSteps.take (step.index + 1)).map Event.hosting) := by
  unfold Startup
  cases h1 : SUCCEEDED (api.result .CLRCreateInstance)
  · simp only [Bool.not_false, if_true]
    refine ⟨⟨_, rfl⟩, ?_, ?_⟩
    · intro later hlt
      cases later <;> cases step <;> simp_all [HostingStep.index]
    · intro hearlier hfresh
      cases step <;> simp_all [HostingStep.index, HostingStep.assertSite, hostingSteps]
  simp only [Bool.not_true, Bool.false_eq_true, if_false]
  cases h2 : SUCCEEDED (api.result .GetRuntime)
  · simp only [Bool.not_false, if_true]
    refine ⟨⟨_, rfl⟩, ?_, ?_⟩
    · intro later hlt
      cases later <;> cases step <;> simp_all [HostingStep.index]
    · intro hearlier hfresh
      cases step <;> simp_all [HostingStep.index, HostingStep.assertSite, hostingSteps]
  simp only [Bool.not_true, Bool.false_eq_true, if_false]
  cases h3 : SUCCEEDED (api.result .GetInterface)
  · simp only [Bool.not_false, if_true]
    refine ⟨⟨_, rfl⟩, ?_, ?_⟩
    · intro later hlt
      cases later <;> cases step <;> simp_all [HostingStep.index]
    · intro hearlier hfresh
      cases step <;> simp_all [HostingStep.index, HostingStep.assertSite, hostingSteps]
  simp only [Bool.not_true, Bool.false_eq_true, if_false]
  cases hh : host._hostControl
  case some hostControl =>
    simp only [Option.isSome_some, if_true]
    refine ⟨⟨_, rfl⟩, ?_, ?_⟩
    · intro later hlt
      cases later <;> cases step <;> simp_all [HostingStep.index]
    · intro hearlier hfresh
      cases step <;> simp_all [HostingStep.index, HostingStep.assertSite, hostingSteps]
  simp only [Option.isSome_none, Bool.false_eq_true, if_false]
  cases h4 : SUCCEEDED (api.result .SetHostControl)
  · simp only [Bool.not_false, if_true]
    refine ⟨⟨_, rfl⟩, ?_, ?_⟩
    · intro later hlt
      cases later <;> cases step <;> simp_all [HostingStep.index]
    · intro hearlier hfresh
      cases step <;> simp_all [HostingStep.index, HostingStep.assertSite, hostingSteps]
  simp only [Bool.not_true, Bool.false_eq_true, if_false]
  cases h5 : SUCCEEDED (api.result .GetCLRControl)
  · simp only [Bool.not_false, if_true]
    refine ⟨⟨_, rfl⟩, ?_, ?_⟩
    · intro later hlt
      cases later <;> cases step <;> simp_all [HostingStep.index]
    · intro hearlier hfresh
      cases step <;> simp_all [HostingStep.index, HostingStep.assertSite, hostingSteps]
  simp only [Bool.not_true, Bool.false_eq_true, if_false]
  cases h6 : SUCCEEDED (api.result .SetAppDomainManagerType)
  · simp only [Bool.not_false, if_true]
    refine ⟨⟨_, rfl⟩, ?_, ?_⟩
    · intro later hlt
      cases later <;> cases step <;> simp_all [HostingStep.index]
    · intro hearlier hfresh
      cases step <;> simp_all [HostingStep.index, HostingStep.assertSite, hostingSteps]
  simp only [Bool.not_true, Bool.false_eq_true, if_false]
  cases h7 : SUCCEEDED (api.result .Start)
  · simp only [Bool.not_false, if_true]
    refine ⟨⟨_, rfl⟩, ?_, ?_⟩
    · intro later hlt
      cases later <;> cases step <;> simp_all [HostingStep.index]
    · intro hearlier hfresh
      cases step <;> simp_all [HostingStep.index, HostingStep.assertSite, hostingSteps]
  simp only [Bool.not_true, Bool.false_eq_true, if_false]
  cases step <;> simp_all

/-- The push loop issues `SetNativeFunctionPointers` calls only. -/
theorem pushClassWrappers_only_pushes (api : SessionApi) :
    ∀ (classWrappers : List (String × ClassWrapperInfo)) (e : Event),
      e ∈ (pushClassWrappers api classWrappers).1 →
      ∃ className safeArray, e = Event.SetNativeFunctionPointers className safeArray := by
  intro classWrappers
  induction classWrappers with
  | nil => intro e he; simp [pushClassWrappers] at he
  | cons classWrapper rest ih =>
    intro e he
    unfold pushClassWrappers at he
    simp only at he
    split at he
    · simp at he
    · split at he
      · simp only [List.mem_singleton] at he
        exact ⟨_, _, he⟩
      · simp only [List.mem_cons] at he
        rcases he with he | he
        · exact ⟨_, _, he⟩
        · exact ih e he

/-- When every push succeeds the loop issues one call per registered class, in registry
order, each carrying the packed array of the class, and completes. -/
theorem pushClassWrappers_of_pushSucceeds (api : SessionApi) :
    ∀ (classWrappers : List (String × ClassWrapperInfo)),
      (∀ classWrapper ∈ classWrappers, pushSucceeds api classWrapper = true) →
      pushClassWrappers api classWrappers =
        (classWrappers.map (fun classWrapper =>
            Event.SetNativeFunctionPointers classWrapper.1
              (some (packedArray classWrapper.2.functionPointers))),
          .returned ()) := by
  intro classWrappers
  induction classWrappers with
  | nil => intro _; rfl
  | cons classWrapper rest ih =>
    intro hok
    have hhead := hok classWrapper (List.mem_cons_self _ _)
    have htail := ih (fun cw hcw => hok cw (List.mem_cons_of_mem _ hcw))
    unfold pushSucceeds at hhead
    simp only [Bool.and_eq_true, decide_eq_true_eq] at hhead
    obtain ⟨⟨⟨⟨⟨hcreate, haccess⟩, hunaccess⟩, hset⟩, hn⟩, hint⟩ := hhead
    have harr := CreateSafeArrayOfWrapperFunctions_eq (api.safeArrayApi classWrapper.1)
      classWrapper.2.functionPointers classWrapper.2.numFunctions hcreate haccess hunaccess hn hint
    unfold pushClassWrappers
    simp only [harr, hset, htail, packedArray, Bool.not_true, Bool.false_eq_true, if_false,
      List.map_cons]


/-! ## Script objects: C1, C2 -/

/-- C1: in a host with an active session, when the session domain manager's
`CreateScriptObject` declines (returns 0), `ClrHost::CreateScriptObject` returns false and
every field of the out-parameter `info` is what it was before the call. -/
theorem CreateScriptObject_declined_leaves_info {Proxy : Type}
    (manager : EngineAppDomainManager Proxy) (className : String) (owner : Pointer)
    (info : ScriptObjectInstanceInfo) (host : ClrHost)
    (hsession : host.sessionActive = true)
    (hdeclined :
      (manager.CreateScriptObject className (reinterpret_cast_INT_PTR owner)).1 = 0) :
    (CreateScriptObject manager className owner info host).1.outcome = .returned false ∧
    (CreateScriptObject manager className owner info host).2 = info ∧
    (CreateScriptObject manager className owner info host).1.calls
      = [Event.CreateScriptObject className (reinterpret_cast_INT_PTR owner)] := by
  obtain ⟨hostControl, engine, hhc, heng⟩ := (sessionActive_iff host).1 hsession
  simp [CreateScriptObject, hhc, ClrHostControl.GetEngineAppDomainManager, heng, hdeclined]

/-- C1 at an unregistered class name: the call returns false and `priorInfo` is intact. -/
theorem CreateScriptObject_declined_leaves_info_witness :
    (CreateScriptObject sampleManager "NoSuchClass" 4096 priorInfo sessionHost).1.outcome
      = .returned false ∧
    (CreateScriptObject sampleManager "NoSuchClass" 4096 priorInfo sessionHost).2 = priorInfo ∧
    (CreateScriptObject sampleManager "NoSuchClass" 4096 priorInfo sessionHost).1.calls
      = [Event.CreateScriptObject "NoSuchClass" (reinterpret_cast_INT_PTR 4096)] :=
  CreateScriptObject_declined_leaves_info sampleManager "NoSuchClass" 4096 priorInfo sessionHost
    (by decide) (by decide)

/-- C2: in a host with an active session, `ClrHost::CreateScriptObject` returns true exactly
when the managed answer is non-zero; when the manager accepts and fills a source record,
the out-parameter holds the same `InstanceID` and three callback pointers whose integer
values are the record's `BeginPlay`, `Tick` and `Destroy`, each in its own field. -/
theorem CreateScriptObject_accepted_fills_info {Proxy : Type}
    (manager : EngineAppDomainManager Proxy) (className : String) (owner : Pointer)
    (info : ScriptObjectInstanceInfo) (host : ClrHost)
    (answer : Int) (srcInfo : Klawr_ClrHost_Interfaces.ScriptObjectInstanceInfo)
    (hsession : host.sessionActive = true)
    (hanswer :
      manager.CreateScriptObject className (reinterpret_cast_INT_PTR owner) = (answer, srcInfo))
    (hBeginPlay : isInt64 srcInfo.BeginPlay = true) (hTick : isInt64 srcInfo.Tick = true)
    (hDestroy : isInt64 srcInfo.Destroy = true) :
    (CreateScriptObject manager className owner info host).1.outcome
      = .returned (decide (answer ≠ 0)) ∧
    ((CreateScriptObject manager className owner info host).1.outcome = .returned true
      ↔ answer ≠ 0) ∧
    (answer ≠ 0 →
      (CreateScriptObject manager className owner info host).2.InstanceID = srcInfo.InstanceID ∧
      reinterpret_cast_INT_PTR (CreateScriptObject manager className owner info host).2.BeginPlay
        = srcInfo.BeginPlay ∧
      reinterpret_cast_INT_PTR (CreateScriptObject manager className owner info host).2.Tick
        = srcInfo.Tick ∧
      reinterpret_cast_INT_PTR (CreateScriptObject manager className owner info host).2.Destroy
        = srcInfo.Destroy) := by
  obtain ⟨hostControl, engine, hhc, heng⟩ := (sessionActive_iff host).1 hsession
  by_cases hz : answer = 0
  · simp [CreateScriptObject, hhc, ClrHostControl.GetEngineAppDomainManager, heng, hanswer, hz]
  · simp [CreateScriptObject, hhc, ClrHostControl.GetEngineAppDomainManager, heng, hanswer, hz,
      reinterpret_cast_INT_PTR_pointer _ hBeginPlay, reinterpret_cast_INT_PTR_pointer _ hTick,
      reinterpret_cast_INT_PTR_pointer _ hDestroy]

/-- C2 at the class `MyActor`, which the sample manager accepts with answer -1 and the
record (99, 100, -200, 300). -/
theorem CreateScriptObject_accepted_fills_info_witness :
    (CreateScriptObject sampleManager "MyActor" 4096 priorInfo sessionHost).1.outcome
      = .returned true ∧
    (CreateScriptObject sampleManager "MyActor" 4096 priorInfo sessionHost).2.InstanceID = 99 ∧
    reinterpret_cast_INT_PTR
      (CreateScriptObject sampleManager "MyActor" 4096 priorInfo sessionHost).2.BeginPlay = 100 ∧
    reinterpret_cast_INT_PTR
      (CreateScriptObject sampleManager "MyActor" 4096 priorInfo sessionHost).2.Tick = -200 ∧
    reinterpret_cast_INT_PTR
      (CreateScriptObject sampleManager "MyActor" 4096 priorInfo sessionHost).2.Destroy = 300 :=
  ⟨(CreateScriptObject_accepted_fills_info sampleManager "MyActor" 4096 priorInfo sessionHost
      (-1) ⟨99, 100, -200, 300⟩ (by decide) (by decide) (by decide) (by decide) (by decide)).1,
   (CreateScriptObject_accepted_fills_info sampleManager "MyActor" 4096 priorInfo sessionHost
      (-1) ⟨99, 100, -200, 300⟩ (by decide) (by decide) (by decide) (by decide) (by decide)).2.2
      (by decide)⟩

/-! ## Script components: C6 -/

/-- C6: when `sizeof` of the native `ScriptComponentProxy` differs from `sizeof` of the
interop one, `ClrHost::CreateScriptComponent` does not return true, issues no call to the
session domain manager and leaves the proxy unwritten; when the sizes are equal and a
session is active it returns true exactly when the managed `CreateScriptComponent`
returns non-zero. -/
theorem CreateScriptComponent_rejects_size_mismatch {Proxy : Type}
    (sizeofInteropProxy sizeofNativeProxy : Nat) (manager : EngineAppDomainManager Proxy)
    (className : String) (nativeComponent : Pointer) (proxy : Proxy) (host : ClrHost) :
    (sizeofInteropProxy ≠ sizeofNativeProxy →
      (CreateScriptComponent sizeofInteropProxy sizeofNativeProxy manager className
        nativeComponent proxy host).1.outcome ≠ .returned true ∧
      (CreateScriptComponent sizeofInteropProxy sizeofNativeProxy manager className
        nativeComponent proxy host).1.calls = [] ∧
      (CreateScriptComponent sizeofInteropProxy sizeofNativeProxy manager className
        nativeComponent proxy host).2 = proxy) ∧
    (sizeofInteropProxy = sizeofNativeProxy → host.sessionActive = true →
      ((CreateScriptComponent sizeofInteropProxy sizeofNativeProxy manager className
        nativeComponent proxy host).1.outcome = .returned true ↔
        (manager.CreateScriptComponent className (reinterpret_cast_INT_PTR nativeComponent)
          proxy).1 ≠ 0) ∧
      (CreateScriptComponent sizeofInteropProxy sizeofNativeProxy manager className
        nativeComponent proxy host).1.outcome = .returned (decide
          ((manager.CreateScriptComponent className (reinterpret_cast_INT_PTR nativeComponent)
            proxy).1 ≠ 0)) ∧
      (CreateScriptComponent sizeofInteropProxy sizeofNativeProxy manager className
        nativeComponent proxy host).1.calls
          = [Event.CreateScriptComponent className (reinterpret_cast_INT_PTR nativeComponent)]) := by
  constructor
  · intro hne
    simp [CreateScriptComponent, hne]
  · intro heq hsession
    obtain ⟨hostControl, engine, hhc, heng⟩ := (sessionActive_iff host).1 hsession
    simp [CreateScriptComponent, heq, hhc, ClrHostControl.GetEngineAppDomainManager, heng]

/-- C6 at sizes 24 and 32 (rejected, proxy 0 intact) and at sizes 32 and 32 with the class
`MyComponent`, which the sample manager accepts. -/
theorem CreateScriptComponent_rejects_size_mismatch_witness :
    ((CreateScriptComponent 24 32 sampleManager "MyComponent" 4096 0 sessionHost).1.outcome
        ≠ .returned true ∧
      (CreateScriptComponent 24 32 sampleManager "MyComponent" 4096 0 sessionHost).1.calls = [] ∧
      (CreateScriptComponent 24 32 sampleManager "MyComponent" 4096 0 sessionHost).2 = 0) ∧
    (CreateScriptComponent 32 32 sampleManager "MyComponent" 4096 0 sessionHost).1.outcome
      = .returned true :=
  ⟨(CreateScriptComponent_rejects_size_mismatch 24 32 sampleManager "MyComponent" 4096 0
      sessionHost).1 (by decide),
   ((CreateScriptComponent_rejects_size_mismatch 32 32 sampleManager "MyComponent" 4096 0
      sessionHost).2 rfl (by decide)).1.2 (by decide)⟩

/-! ## Function-pointer packing: C4 -/

/-- C4: when safe-array creation and data access (the `SafeArrayAccessData` /
`SafeArrayUnaccessData` pair) succeed, `CreateSafeArrayOfWrapperFunctions` applied to an
array of `n` function pointers returns a one-dimensional `VT_I8` array with lower bound 0
and exactly `n` elements; element `i` is `wrapperFunctions[i]` reinterpreted as a signed
64-bit integer, in the same order, and reinterpreting it back gives the pointer again. -/
theorem CreateSafeArrayOfWrapperFunctions_packs_in_order (api : SafeArrayApi)
    (wrapperFunctions : List Pointer) (numFunctions : Int)
    (hcreate : api.createVectorSucceeds = true)
    (haccess : SUCCEEDED api.accessData = true) (hunaccess : SUCCEEDED api.unaccessData = true)
    (hn : numFunctions = wrapperFunctions.length) (hint : numFunctions < 2 ^ 31)
    (hptr : ∀ p ∈ wrapperFunctions, p < 2 ^ 64) :
    ∃ safeArray,
      CreateSafeArrayOfWrapperFunctions api wrapperFunctions numFunctions
        = .returned (some safeArray) ∧
      safeArray.cDims = 1 ∧ safeArray.vt = .VT_I8 ∧ safeArray.lLbound = 0 ∧
      (safeArray.cElements : Int) = numFunctions ∧
      (safeArray.pvData.length : Int) = numFunctions ∧
      ∀ i p, wrapperFunctions.get? i = some p →
        safeArray.pvData.get? i = some (reinterpret_cast_INT_PTR p) ∧
        isInt64 (reinterpret_cast_INT_PTR p) = true ∧
        reinterpret_cast_pointer (reinterpret_cast_INT_PTR p) = p := by
  refine ⟨_, CreateSafeArrayOfWrapperFunctions_eq api wrapperFunctions numFunctions hcreate
    haccess hunaccess hn hint, rfl, rfl, rfl, hn.symm, ?_, ?_⟩
  · simp [hn, packedArray]
  · intro i p hp
    have hmem : p ∈ wrapperFunctions := List.get?_mem hp
    refine ⟨?_, reinterpret_cast_INT_PTR_isInt64 p, reinterpret_cast_pointer_INT_PTR p (hptr p hmem)⟩
    simp only [List.get?_eq_getElem?] at hp ⊢
    simp [hp, packedArray]

/-- C4 at a table of three pointers, the last with its top bit set: three elements, the
third the pointer read as -16, which reads back as the pointer. -/
theorem CreateSafeArrayOfWrapperFunctions_packs_in_order_witness :
    ∃ safeArray,
      CreateSafeArrayOfWrapperFunctions ⟨true, 0, 0⟩ [4096, 8192, 2 ^ 64 - 16] 3
        = .returned (some safeArray) ∧
      safeArray.cDims = 1 ∧ safeArray.vt = .VT_I8 ∧ safeArray.lLbound = 0 ∧
      (safeArray.cElements : Int) = 3 ∧
      (safeArray.pvData.length : Int) = 3 ∧
      safeArray.pvData.get? 2 = some (reinterpret_cast_INT_PTR (2 ^ 64 - 16)) ∧
      reinterpret_cast_INT_PTR (2 ^ 64 - 16) = -16 ∧
      reinterpret_cast_pointer (reinterpret_cast_INT_PTR (2 ^ 64 - 16)) = 2 ^ 64 - 16 :=
  match CreateSafeArrayOfWrapperFunctions_packs_in_order ⟨true, 0, 0⟩
      [4096, 8192, 2 ^ 64 - 16] 3 rfl (by decide) (by decide) (by decide) (by decide)
      (by decide) with
  | ⟨safeArray, hreturned, hdims, hvt, hlbound, hcount, hlength, helements⟩ =>
    ⟨safeArray, hreturned, hdims, hvt, hlbound, hcount, hlength,
      (helements 2 (2 ^ 64 - 16) rfl).1, by decide, (helements 2 (2 ^ 64 - 16) rfl).2.2⟩

/-! ## Startup: C5 -/

/-- C5: for every assignment of result codes to the seven hosting steps,
`ClrHost::Startup` returns only if every step succeeded; a failing step ends the run in a
failed assertion with no later step called (so `Start` is not called after an earlier
failure), the assertion being the one of the first failing step, with exactly the steps up
to it called, whenever the host control was unset on entry; and from such a host the run
does return when all seven steps succeed. -/
theorem Startup_succeeds_only_if_every_step_succeeds (api : HostingApi) (host : ClrHost) :
    ((Startup api host).outcome = .returned () →
      ∀ step, SUCCEEDED (api.result step) = true) ∧
    (∀ step, SUCCEEDED (api.result step) = false →
      (∃ site, (Startup api host).outcome = .fault (.assertFailed site)) ∧
      (∀ later : HostingStep, step.index < later.index →
        Event.hosting later ∉ (Startup api host).calls) ∧
      (step ≠ .Start → Event.hosting .Start ∉ (Startup api host).calls) ∧
      ((∀ earlier : HostingStep, earlier.index < step.index →
          SUCCEEDED (api.result earlier) = true) →
        (host._hostControl = none ∨ step.index < 3) →
        (Startup api host).outcome = .fault (.assertFailed step.assertSite) ∧
        (Startup api host).calls = (hostingSteps.take (step.index + 1)).map Event.hosting)) ∧
    ((∀ step, SUCCEEDED (api.result step) = true) → host._hostControl = none →
      (Startup api host).outcome = .returned () ∧
      (Startup api host).calls = hostingSteps.map Event.hosting) := by
  refine ⟨Startup_returned_all_succeeded api host, ?_, ?_⟩
  · intro step hfail
    obtain ⟨hsite, hlater, hfirst⟩ := Startup_failure api host step hfail
    refine ⟨hsite, hlater, ?_, hfirst⟩
    intro hne
    apply hlater
    cases step <;> simp [HostingStep.index] at hne ⊢
  · intro hall hfresh
    simp [Startup, hall, hfresh, hostingSteps]

/-- C5 at a fresh host whose `GetInterface` step answers `E_FAIL`: the run ends in the
assertion after `GetInterface`, three steps were called and `Start` was not. -/
theorem Startup_succeeds_only_if_every_step_succeeds_witness :
    (Startup hostingGetInterfaceFails ⟨none, none, []⟩).outcome
      = .fault (.assertFailed .getInterface) ∧
    (Startup hostingGetInterfaceFails ⟨none, none, []⟩).calls
      = [Event.hosting .CLRCreateInstance, Event.hosting .GetRuntime,
         Event.hosting .GetInterface] ∧
    Event.hosting .Start ∉ (Startup hostingGetInterfaceFails ⟨none, none, []⟩).calls :=
  ⟨(((Startup_succeeds_only_if_every_step_succeeds hostingGetInterfaceFails
        ⟨none, none, []⟩).2.1 .GetInterface (by decide)).2.2.2 (by decide) (by decide)).1,
   (((Startup_succeeds_only_if_every_step_succeeds hostingGetInterfaceFails
        ⟨none, none, []⟩).2.1 .GetInterface (by decide)).2.2.2 (by decide) (by decide)).2,
   ((Startup_succeeds_only_if_every_step_succeeds hostingGetInterfaceFails
        ⟨none, none, []⟩).2.1 .GetInterface (by decide)).2.2.1 (by decide)⟩

/-! ## Shutdown and destroy calls: C3, C8, C10 -/

/-- C3: for a started host with an active session, the calls of `ClrHost::Shutdown` are
`DestroyEngineAppDomain` first, the runtime host's `Stop` second, and the host control's
`Release` third, the last one issued once `Stop` has reported success (when `Stop` fails
the run stops at its `assert`). So `DestroyEngineAppDomain` is called strictly before
`Stop`, `Stop` is never called before the session has been destroyed, and `Release` is
never called before `Stop`. The code does not consult the session handle: the same holds
in every started state. -/
theorem Shutdown_destroys_session_before_stop (stopResult : HRESULT) (host : ClrHost)
    (hstarted : host.started = true) (_hsession : host.sessionActive = true) :
    (Shutdown stopResult host).calls =
      [Event.DestroyEngineAppDomain, Event.Stop]
        ++ (if SUCCEEDED stopResult then [Event.Release] else []) ∧
    (Shutdown stopResult host).calls.indexOf Event.DestroyEngineAppDomain
      < (Shutdown stopResult host).calls.indexOf Event.Stop ∧
    (Shutdown stopResult host).calls.indexOf Event.Stop
      < (Shutdown stopResult host).calls.indexOf Event.Release ∧
    Event.DestroyEngineAppDomain ∈ (Shutdown stopResult host).calls ∧
    Event.Stop ∈ (Shutdown stopResult host).calls ∧
    (SUCCEEDED stopResult = true → Event.Release ∈ (Shutdown stopResult host).calls ∧
      (Shutdown stopResult host).outcome = .returned ()) := by
  obtain ⟨runtimeHost, hostControl, manager, hrt, hhc, hdef⟩ := (started_iff host).1 hstarted
  have hcalls := Shutdown_calls stopResult host runtimeHost hostControl hrt hhc
  rw [hdef] at hcalls
  cases hs : SUCCEEDED stopResult
  · have hlist : (Shutdown stopResult host).calls
        = [Event.DestroyEngineAppDomain, Event.Stop] := by simpa [hs] using hcalls
    rw [hlist]
    refine ⟨by simp, by decide, by decide, by decide, by decide, ?_⟩
    intro h; cases h
  · have hlist : (Shutdown stopResult host).calls
        = [Event.DestroyEngineAppDomain, Event.Stop, Event.Release] := by simpa [hs] using hcalls
    rw [hlist]
    refine ⟨by simp, by decide, by decide, by decide, by decide, ?_⟩
    intro _
    refine ⟨by decide, ?_⟩
    simp [Shutdown, hrt, hhc, hs]

/-- C3 at the sample host with a session, `Stop` answering `S_OK`. -/
theorem Shutdown_destroys_session_before_stop_witness :
    (Shutdown 0 sessionHost).calls
      = [Event.DestroyEngineAppDomain, Event.Stop, Event.Release] ∧
    (Shutdown 0 sessionHost).calls.indexOf Event.DestroyEngineAppDomain
      < (Shutdown 0 sessionHost).calls.indexOf Event.Stop ∧
    (Shutdown 0 sessionHost).calls.indexOf Event.Stop
      < (Shutdown 0 sessionHost).calls.indexOf Event.Release ∧
    (Shutdown 0 sessionHost).outcome = .returned () :=
  ⟨(Shutdown_destroys_session_before_stop 0 sessionHost (by decide) (by decide)).1,
   (Shutdown_destroys_session_before_stop 0 sessionHost (by decide) (by decide)).2.1,
   (Shutdown_destroys_session_before_stop 0 sessionHost (by decide) (by decide)).2.2.1,
   ((Shutdown_destroys_session_before_stop 0 sessionHost (by decide) (by decide)).2.2.2.2.2
      (by decide)).2⟩

/-- C8, as stated, fails: a started host with no active session still gets one
`DestroyEngineAppDomain` call from `ClrHost::Shutdown`. -/
theorem Shutdown_destroy_without_session_counterexample :
    (ClrHost.started startedHost = true ∧
      ClrHost.sessionActive startedHost = false) ∧
    (Shutdown 0 startedHost).calls
      = [Event.DestroyEngineAppDomain, Event.Stop, Event.Release] ∧
    ¬ (Event.DestroyEngineAppDomain ∈ (Shutdown 0 startedHost).calls
        ↔ ClrHost.sessionActive startedHost = true) := by
  decide

/-- C8, amended: `ClrHost::Shutdown` asks for the engine domain to be destroyed if and only
if the default domain manager handle is non-null at the time of the call, whether or not a
session is active: in every started host state it makes exactly one
`DestroyEngineAppDomain` call, first, then stops the runtime and, `Stop` having succeeded,
releases the host-control object and returns. -/
theorem Shutdown_destroy_iff_default_manager (stopResult : HRESULT) (host : ClrHost)
    (runtimeHost : Handle) (hostControl : ClrHostControl)
    (hrt : host._runtimeHost = some runtimeHost) (hhc : host._hostControl = some hostControl) :
    (Event.DestroyEngineAppDomain ∈ (Shutdown stopResult host).calls
      ↔ hostControl.defaultAppDomainManager.isSome = true) ∧
    (host.started = true →
      (Shutdown stopResult host).calls.count Event.DestroyEngineAppDomain = 1 ∧
      (Shutdown stopResult host).calls =
        [Event.DestroyEngineAppDomain, Event.Stop]
          ++ (if SUCCEEDED stopResult then [Event.Release] else []) ∧
      (SUCCEEDED stopResult = true →
        (Shutdown stopResult host).outcome = .returned () ∧
        (Shutdown stopResult host).host._hostControl = none)) := by
  have hcalls := Shutdown_calls stopResult host runtimeHost hostControl hrt hhc
  constructor
  · rw [hcalls]
    cases hd : hostControl.defaultAppDomainManager <;> cases hs : SUCCEEDED stopResult <;> simp
  · intro hstarted
    obtain ⟨runtimeHost2, hostControl2, manager, _, hhc2, hdef⟩ := (started_iff host).1 hstarted
    rw [hhc] at hhc2
    cases hhc2
    rw [hdef] at hcalls
    refine ⟨?_, by simpa using hcalls, ?_⟩
    · rw [hcalls]
      cases hs : SUCCEEDED stopResult <;> simp
    · intro hs
      simp [Shutdown, hrt, hhc, hs]

/-- C8, amended, at the sample host without a session and at the one with a session: one
`DestroyEngineAppDomain` call each. -/
theorem Shutdown_destroy_iff_default_manager_witness :
    (Shutdown 0 startedHost).calls.count Event.DestroyEngineAppDomain = 1 ∧
    (Shutdown 0 startedHost).calls
      = [Event.DestroyEngineAppDomain, Event.Stop, Event.Release] ∧
    (Shutdown 0 startedHost).outcome = .returned () ∧
    (Shutdown 0 sessionHost).calls.count Event.DestroyEngineAppDomain = 1 :=
  ⟨((Shutdown_destroy_iff_default_manager 0 startedHost 7 ⟨some 1, none⟩ rfl rfl).2
      (by decide)).1,
   ((Shutdown_destroy_iff_default_manager 0 startedHost 7 ⟨some 1, none⟩ rfl rfl).2
      (by decide)).2.1,
   (((Shutdown_destroy_iff_default_manager 0 startedHost 7 ⟨some 1, none⟩ rfl rfl).2
      (by decide)).2.2 (by decide)).1,
   ((Shutdown_destroy_iff_default_manager 0 sessionHost 7 ⟨some 1, some 2⟩ rfl rfl).2
      (by decide)).1⟩

/-- C10, as stated, fails: in the host state `ClrHost::Startup` leaves (no session yet),
`ClrHost::DestroyScriptObject` and `ClrHost::DestroyScriptComponent` apply `->` to the null
engine domain manager handle, for instance with ID 5. -/
theorem DestroyScript_without_session_counterexample :
    (Startup hostingOk ⟨none, none, []⟩).outcome = .returned () ∧
    (Startup hostingOk ⟨none, none, []⟩).host.sessionActive = false ∧
    (DestroyScriptObject 5 (Startup hostingOk ⟨none, none, []⟩).host).outcome
      = .fault (.nullDereference .engineAppDomainManager) ∧
    (DestroyScriptObject 5
      (Startup hostingOk ⟨none, none, []⟩).host).outcome.defined = false ∧
    (DestroyScriptComponent 5 (Startup hostingOk ⟨none, none, []⟩).host).outcome
      = .fault (.nullDereference .engineAppDomainManager) ∧
    (DestroyScriptComponent 5
      (Startup hostingOk ⟨none, none, []⟩).host).outcome.defined = false := by
  decide

/-- C10, amended: for every instance ID and every host state whose session manager handle is
non-null, `ClrHost::DestroyScriptObject` and `ClrHost::DestroyScriptComponent` return
(a defined outcome) after forwarding exactly one destroy call carrying the same ID, whether
or not the ID was ever created; with a host control whose session manager handle is null
they dereference it unchecked. -/
theorem DestroyScript_forwards_once_in_session (instanceID : Int) (host : ClrHost) :
    (host.sessionActive = true →
      (DestroyScriptObject instanceID host).calls = [Event.DestroyScriptObject instanceID] ∧
      (DestroyScriptObject instanceID host).outcome = .returned () ∧
      (DestroyScriptObject instanceID host).outcome.defined = true ∧
      (DestroyScriptComponent instanceID host).calls
        = [Event.DestroyScriptComponent instanceID] ∧
      (DestroyScriptComponent instanceID host).outcome = .returned () ∧
      (DestroyScriptComponent instanceID host).outcome.defined = true) ∧
    (host._hostControl.isSome = true → host.sessionActive = false →
      (DestroyScriptObject instanceID host).calls = [] ∧
      (DestroyScriptObject instanceID host).outcome
        = .fault (.nullDereference .engineAppDomainManager) ∧
      (DestroyScriptComponent instanceID host).calls = [] ∧
      (DestroyScriptComponent instanceID host).outcome
        = .fault (.nullDereference .engineAppDomainManager)) := by
  constructor
  · intro hsession
    obtain ⟨hostControl, engine, hhc, heng⟩ := (sessionActive_iff host).1 hsession
    simp [DestroyScriptObject, DestroyScriptComponent, hhc,
      ClrHostControl.GetEngineAppDomainManager, heng, Outcome.defined]
  · intro hsome hinactive
    cases hhc : host._hostControl with
    | none => simp [hhc] at hsome
    | some hostControl =>
      cases heng : hostControl.engineAppDomainManager with
      | none =>
        simp [DestroyScriptObject, DestroyScriptComponent, hhc,
          ClrHostControl.GetEngineAppDomainManager, heng]
      | some engine => simp [ClrHost.sessionActive, hhc, heng] at hinactive

/-- C10, amended, at ID 5 in a host with an active session. -/
theorem DestroyScript_forwards_once_in_session_witness :
    (DestroyScriptObject 5 sessionHost).calls
      = [Event.DestroyScriptObject 5] ∧
    (DestroyScriptObject 5 sessionHost).outcome = .returned () ∧
    (DestroyScriptObject 5 sessionHost).outcome.defined = true ∧
    (DestroyScriptComponent 5 sessionHost).calls
      = [Event.DestroyScriptComponent 5] ∧
    (DestroyScriptComponent 5 sessionHost).outcome = .returned () ∧
    (DestroyScriptComponent 5 sessionHost).outcome.defined = true :=
  (DestroyScript_forwards_once_in_session 5 sessionHost).1 rfl

/-! ## Session creation: C7, C9 -/

/-- C7, as stated, fails. With one registered class and a non-null engine domain manager:
when `SetNativeFunctionPointers` answers `E_FAIL` the run ends at the `assert` after the
push, and neither `BindObjectUtils` nor `LoadUnrealEngineWrapperAssembly` is called; when
`SafeArrayCreateVector` gives null the push carries the null array, not the packed one. -/
theorem InitializeEngineAppDomain_push_failure_counterexample :
    ((InitializeEngineAppDomain sessionPushFails sampleUtils startedHost).calls
        = [Event.CreateEngineAppDomain,
           Event.SetNativeFunctionPointers "AActor" (some (packedArray [4096, 2 ^ 64 - 16]))] ∧
      (InitializeEngineAppDomain sessionPushFails sampleUtils startedHost).outcome
        = .fault (.assertFailed .setNativeFunctionPointers) ∧
      Event.BindObjectUtils (interopObjectUtils sampleUtils)
        ∉ (InitializeEngineAppDomain sessionPushFails sampleUtils startedHost).calls ∧
      Event.LoadUnrealEngineWrapperAssembly
        ∉ (InitializeEngineAppDomain sessionPushFails sampleUtils startedHost).calls) ∧
    (InitializeEngineAppDomain sessionNoArray sampleUtils startedHost).calls
      = [Event.CreateEngineAppDomain, Event.SetNativeFunctionPointers "AActor" none,
         Event.BindObjectUtils (interopObjectUtils sampleUtils),
         Event.LoadUnrealEngineWrapperAssembly] := by
  decide

/-- C7, amended: for every registry of class wrappers and every utility-info argument, when
session creation yields a non-null engine domain manager and, for every registered class,
safe-array creation, data access and `SetNativeFunctionPointers` succeed (the entry's
`numFunctions` being the length of its table), the calls made by
`ClrHost::InitializeEngineAppDomain` are, in order: `CreateEngineAppDomain` once; one
`SetNativeFunctionPointers` call per registered class, keyed by the class name and carrying
the packed array of the class's pointers; one `BindObjectUtils` call whose four fields are
the integer values of the like-named callbacks; one `LoadUnrealEngineWrapperAssembly`
call, last; and the run returns. -/
theorem InitializeEngineAppDomain_calls_in_order (api : SessionApi)
    (info : ObjectUtilsNativeInfo) (host : ClrHost) (hstarted : host.started = true)
    (hengine : api.engineAppDomainManager.isSome = true)
    (hpush : ∀ classWrapper ∈ host._classWrappers, pushSucceeds api classWrapper = true) :
    (InitializeEngineAppDomain api info host).calls =
      [Event.CreateEngineAppDomain]
        ++ host._classWrappers.map (fun classWrapper =>
            Event.SetNativeFunctionPointers classWrapper.1
              (some (packedArray classWrapper.2.functionPointers)))
        ++ [Event.BindObjectUtils
              { GetClassByName := reinterpret_cast_INT_PTR info.GetClassByName
                GetClassName := reinterpret_cast_INT_PTR info.GetClassName
                IsClassChildOf := reinterpret_cast_INT_PTR info.IsClassChildOf
                RemoveObjectRef := reinterpret_cast_INT_PTR info.RemoveObjectRef },
            Event.LoadUnrealEngineWrapperAssembly] ∧
    (InitializeEngineAppDomain api info host).outcome = .returned () ∧
    (InitializeEngineAppDomain api info host).host.sessionActive = true := by
  obtain ⟨runtimeHost, hostControl, manager, hrt, hhc, hdef⟩ := (started_iff host).1 hstarted
  obtain ⟨engine, heng⟩ := Option.isSome_iff_exists.1 hengine
  have hloop := pushClassWrappers_of_pushSucceeds api host._classWrappers hpush
  simp [InitializeEngineAppDomain, hhc, ClrHostControl.GetDefaultAppDomainManager, hdef,
    ClrHostControl.GetEngineAppDomainManager, heng, hloop, ClrHost.sessionActive,
    ClrHostControl.registerEngineAppDomainManager]

/-- C7, amended, at the started sample host with every collaborator succeeding. -/
theorem InitializeEngineAppDomain_calls_in_order_witness :
    (InitializeEngineAppDomain sessionOk sampleUtils startedHost).calls =
      [Event.CreateEngineAppDomain,
       Event.SetNativeFunctionPointers "AActor" (some ⟨1, .VT_I8, 0, 2, [4096, -16]⟩),
       Event.BindObjectUtils ⟨1000, 2000, 3000, -8⟩,
       Event.LoadUnrealEngineWrapperAssembly] ∧
    (InitializeEngineAppDomain sessionOk sampleUtils startedHost).outcome = .returned () ∧
    (InitializeEngineAppDomain sessionOk sampleUtils startedHost).host.sessionActive = true :=
  InitializeEngineAppDomain_calls_in_order sessionOk sampleUtils startedHost (by decide)
    (by decide) (by decide)

/-- C9, as stated, fails: after a first `ClrHost::InitializeEngineAppDomain` has left the
host holding the session's domain manager (handle 2) and no destroy was issued, a second
call is not rejected; it issues `CreateEngineAppDomain` again, pushes again and returns. -/
theorem InitializeEngineAppDomain_second_call_counterexample :
    (InitializeEngineAppDomain sessionOk sampleUtils startedHost).outcome = .returned () ∧
    (InitializeEngineAppDomain sessionOk sampleUtils startedHost).host = sessionHost ∧
    sessionHost.started = true ∧ sessionHost.sessionActive = true ∧
    Event.DestroyEngineAppDomain
      ∉ (InitializeEngineAppDomain sessionOk sampleUtils startedHost).calls ∧
    (InitializeEngineAppDomain sessionAgain sampleUtils sessionHost).calls
      = [Event.CreateEngineAppDomain,
         Event.SetNativeFunctionPointers "AActor" (some (packedArray [4096, 2 ^ 64 - 16])),
         Event.BindObjectUtils (interopObjectUtils sampleUtils),
         Event.LoadUnrealEngineWrapperAssembly] ∧
    (InitializeEngineAppDomain sessionAgain sampleUtils sessionHost).outcome = .returned () := by
  decide

/-- C9, amended: `ClrHost::InitializeEngineAppDomain` performs no check for an existing
session. For every started host state, whether or not a session domain manager handle is
already held, it issues `CreateEngineAppDomain` exactly once, as its first call, and issues
no `DestroyEngineAppDomain`; a second call without an intervening destroy is therefore not
rejected, and running once per session is left to the caller. -/
theorem InitializeEngineAppDomain_always_creates (api : SessionApi)
    (info : ObjectUtilsNativeInfo) (host : ClrHost) (hstarted : host.started = true) :
    ∃ rest, (InitializeEngineAppDomain api info host).calls = Event.CreateEngineAppDomain :: rest ∧
      Event.CreateEngineAppDomain ∉ rest ∧ Event.DestroyEngineAppDomain ∉ rest := by
  obtain ⟨runtimeHost, hostControl, manager, hrt, hhc, hdef⟩ := (started_iff host).1 hstarted
  have hpush := pushClassWrappers_only_pushes api host._classWrappers
  unfold InitializeEngineAppDomain
  simp only [hhc, ClrHostControl.GetDefaultAppDomainManager, hdef,
    ClrHostControl.GetEngineAppDomainManager,
    ClrHostControl.registerEngineAppDomainManager]
  cases heng : api.engineAppDomainManager with
  | none => exact ⟨[], rfl, by simp, by simp⟩
  | some engine =>
    simp only []
    cases hout : (pushClassWrappers api host._classWrappers).2 with
    | fault f =>
      refine ⟨(pushClassWrappers api host._classWrappers).1, by simp, ?_, ?_⟩
      · intro hmem
        obtain ⟨n, a, h⟩ := hpush _ hmem
        cases h
      · intro hmem
        obtain ⟨n, a, h⟩ := hpush _ hmem
        cases h
    | returned u =>
      refine ⟨(pushClassWrappers api host._classWrappers).1 ++
        [Event.BindObjectUtils (interopObjectUtils info), Event.LoadUnrealEngineWrapperAssembly],
        by simp [interopObjectUtils], ?_, ?_⟩
      · intro hmem
        rcases List.mem_append.1 hmem with hmem | hmem
        · obtain ⟨n, a, h⟩ := hpush _ hmem
          cases h
        · simp at hmem
      · intro hmem
        rcases List.mem_append.1 hmem with hmem | hmem
        · obtain ⟨n, a, h⟩ := hpush _ hmem
          cases h
        · simp at hmem

/-- C9, amended, at a host that already holds a session domain manager. -/
theorem InitializeEngineAppDomain_always_creates_witness :
    ∃ rest, (InitializeEngineAppDomain sessionAgain sampleUtils sessionHost).calls
        = Event.CreateEngineAppDomain :: rest ∧
      Event.CreateEngineAppDomain ∉ rest ∧ Event.DestroyEngineAppDomain ∉ rest :=
  InitializeEngineAppDomain_always_creates sessionAgain sampleUtils sessionHost (by decide)

end Klawr
